import Mathlib

/-!
A verification development for the repository file
`comprehensive_examples.py`, a demo script for a conversation-management
and information-extraction system built on an external chat-completion
client.

Part 1 embeds the module itself.  The script references the classes
`ConversationManager`, `InformationExtractor`, `Message`,
`ExtractionResult`, `GroqClient` and the globals `GROQ_API_KEY`,
`groq_client`, `datetime`, `GroqAuthenticationError`,
`GroqRateLimitError`, none of which are defined anywhere in the
repository.  We model Python name resolution over the set of names the
module actually binds, together with the try/except control flow of each
function, in the `Except` monad.  Statements whose behaviour would
depend on the undefined classes are provably unreachable (the name load
raises `NameError` first); they are represented by `rest`-style
parameters, and every theorem below holds for every value of those
parameters.

Part 2 models the conversation-state and extraction core that the
specification reconstructs (the classes are absent from the repository,
so they are modelled from the specification, as marked on each
definition).
-/

/-- Equality of `Except` values is decidable when it is on both
components; used to evaluate the embedded operations on concrete
inputs. -/
instance {ε α : Type} [DecidableEq ε] [DecidableEq α] :
    DecidableEq (Except ε α) := fun x y =>
  match x, y with
  | Except.ok a, Except.ok b =>
    if h : a = b then Decidable.isTrue (by rw [h])
    else Decidable.isFalse (by intro he; cases he; exact h rfl)
  | Except.error a, Except.error b =>
    if h : a = b then Decidable.isTrue (by rw [h])
    else Decidable.isFalse (by intro he; cases he; exact h rfl)
  | Except.ok _, Except.error _ => Decidable.isFalse (by intro he; cases he)
  | Except.error _, Except.ok _ => Decidable.isFalse (by intro he; cases he)

/-- The Python exception values that can arise in the embedded module:
`NameError` for an unbound name, plus the builtin exception classes the
module mentions in its `except` clauses. -/
inductive PyError where
  | nameError (name : String)
  | valueError (msg : String)
  | importError (msg : String)
  deriving DecidableEq

/-- The names bound at module level of `comprehensive_examples.py` by the
time any of its functions can run: the six function definitions and the
two module-level string assignments (src lines 14, 63, 130, 198, 278,
346, 480, 563).  No class is defined in the file. -/
def moduleNames : List String :=
  ["example_basic_conversation_management",
   "example_information_extraction",
   "example_summarization_strategies",
   "example_error_handling",
   "run_system_diagnostics",
   "complete_system_demonstration",
   "TROUBLESHOOTING_GUIDE",
   "USAGE_INSTRUCTIONS"]

/-- The Python builtins the module refers to. -/
def builtinNames : List String :=
  ["print", "len", "bool", "str", "enumerate", "type",
   "ValueError", "Exception", "ImportError", "__import__", "locals"]

/-- Python name resolution for the module: a name load succeeds when the
name is bound at module level or is a builtin, and raises `NameError`
otherwise. -/
def pyLookup (n : String) : Except PyError Unit :=
  if n ∈ moduleNames ∨ n ∈ builtinNames then Except.ok ()
  else Except.error (PyError.nameError n)

/-- A `print(...)` statement: resolves the builtin `print` and writes to
stdout (output is not tracked; only control flow matters here). -/
def pyPrint : Except PyError Unit :=
  pyLookup "print"

/-- One `except <classExpr> :` clause.  Evaluating the class expression
can itself raise (Python evaluates it only when a handler is searched,
and an unbound exception-class name raises `NameError` at that point). -/
structure ExceptClause where
  classExpr : Except PyError (PyError → Bool)
  handler : Except PyError Unit

/-- Handler search of Python: clauses are tried in order; evaluating a
clause class expression may raise, a matching clause runs its handler,
and with no matching clause the original exception propagates. -/
def matchClauses (e : PyError) : List ExceptClause → Except PyError Unit
  | [] => Except.error e
  | c :: cs =>
    match c.classExpr with
    | Except.error e2 => Except.error e2
    | Except.ok m => if m e then c.handler else matchClauses e cs

/-- A `try:` statement with a list of `except` clauses. -/
def pyTry (body : Except PyError Unit) (clauses : List ExceptClause) :
    Except PyError Unit :=
  match body with
  | Except.ok _ => Except.ok ()
  | Except.error e => matchClauses e clauses

/-- Matcher for the builtin `ValueError`. -/
def isValueError : PyError → Bool
  | PyError.valueError _ => true
  | _ => false

/-- Matcher for the builtin `Exception`: every error modelled here is an
`Exception` subclass, so it matches everything. -/
def isException : PyError → Bool := fun _ => true

/-- Matcher for the builtin `ImportError`. -/
def isImportError : PyError → Bool
  | PyError.importError _ => true
  | _ => false

/-- An `except C :` clause whose class expression is the name `n`; if the
name resolves, `m` decides whether the exception matches. -/
def pyClause (n : String) (m : PyError → Bool) (h : Except PyError Unit) :
    ExceptClause :=
  { classExpr := do
      pyLookup n
      pure m
    handler := h }

/-- The `try` block of `example_basic_conversation_management`
(src lines 27-56).  Line 29 loads `GroqClient` then `GROQ_API_KEY`;
line 30 loads `ConversationManager`; line 35 prints.  `rest` stands for
lines 37-56, which call methods of the objects those constructions would
have produced and therefore cannot be modelled from the repository. -/
def example_basic_try (rest : Except PyError Unit) : Except PyError Unit := do
  pyLookup "GroqClient"
  pyLookup "GROQ_API_KEY"
  pyLookup "ConversationManager"
  pyPrint
  rest

/-- `example_basic_conversation_management` (src lines 14-60): two prints
(lines 24-25), then the try block, with a whole-body
`except Exception as e` handler that prints twice (lines 58-60). -/
def example_basic_conversation_management (rest : Except PyError Unit) :
    Except PyError Unit := do
  pyPrint
  pyPrint
  pyTry (example_basic_try rest)
    [pyClause "Exception" isException (do
      pyPrint
      pyPrint)]

/-- The `try` block of `example_information_extraction`
(src lines 76-124).  Line 78 loads `InformationExtractor` then the
unbound module-level name `groq_client`; line 79 prints.  `rest` stands
for lines 81-124. -/
def example_information_try (rest : Except PyError Unit) :
    Except PyError Unit := do
  pyLookup "InformationExtractor"
  pyLookup "groq_client"
  pyPrint
  rest

/-- `example_information_extraction` (src lines 63-127): two prints
(lines 73-74), the try block, and a whole-body `except Exception as e`
handler that prints (lines 126-127). -/
def example_information_extraction (rest : Except PyError Unit) :
    Except PyError Unit := do
  pyPrint
  pyPrint
  pyTry (example_information_try rest)
    [pyClause "Exception" isException pyPrint]

/-- The `try` block of `example_summarization_strategies`
(src lines 143-192).  Line 145 loads `ConversationManager` and line 146
loads the unbound `groq_client`.  `rest` stands for lines 150-192. -/
def example_summarization_try (rest : Except PyError Unit) :
    Except PyError Unit := do
  pyLookup "ConversationManager"
  pyLookup "groq_client"
  rest

/-- `example_summarization_strategies` (src lines 130-195): two prints
(lines 140-141), the try block, and a whole-body `except Exception as e`
handler that prints (lines 194-195). -/
def example_summarization_strategies (rest : Except PyError Unit) :
    Except PyError Unit := do
  pyPrint
  pyPrint
  pyTry (example_summarization_try rest)
    [pyClause "Exception" isException pyPrint]

/-- `example_error_handling` (src lines 198-271).  Prints at lines
208-215, then four error-scenario `try` statements, then (outside any
`try`) the validation section that loads `Message` at line 257.  In
scenario 3 the `except` clause names the unbound
`GroqAuthenticationError`; since that lookup raises, its matcher is
never consulted (the `fun _ => false` argument is dead).  `r1`-`r4`
stand for the unmodellable remainders of the scenario bodies after the
failing class-name load, `r5` for lines 258-271. -/
def example_error_handling (r1 r2 r3 r4 r5 : Except PyError Unit) :
    Except PyError Unit := do
  pyPrint
  pyPrint
  pyPrint
  pyPrint
  pyTry (do
      pyLookup "Message"
      r1)
    [pyClause "ValueError" isValueError pyPrint]
  pyPrint
  pyTry (do
      pyLookup "ExtractionResult"
      r2)
    [pyClause "ValueError" isValueError pyPrint]
  pyPrint
  pyTry (do
      pyLookup "GroqClient"
      r3)
    [pyClause "GroqAuthenticationError" (fun _ => false) pyPrint]
  pyPrint
  pyTry (do
      pyLookup "GroqClient"
      pyLookup "GROQ_API_KEY"
      r4)
    [pyClause "ValueError" isValueError pyPrint,
     pyClause "Exception" isException pyPrint]
  pyPrint
  pyPrint
  pyLookup "Message"
  r5

/-- `run_system_diagnostics` (src lines 278-339): prints and the
(successful) `import sys` version check on lines 282-295, then line 296
evaluates `if GROQ_API_KEY:`, whose name load raises `NameError` outside
any `try`.  `rest` stands for lines 296-339, all of which depend on the
value that load would have produced. -/
def run_system_diagnostics (rest : Except PyError Unit) :
    Except PyError Unit := do
  pyPrint
  pyPrint
  pyPrint
  pyPrint
  pyPrint
  pyLookup "GROQ_API_KEY"
  rest

/-- The API-key masking expression of src line 297:
`GROQ_API_KEY[:8] + "..." + GROQ_API_KEY[-4:] if len(GROQ_API_KEY) > 12
else "***"`.  Python `s[:8]` is `String.take 8`; `s[-4:]` is
`s.drop (s.length - 4)` (for `s.length < 4` Nat subtraction truncates to
zero and `drop 0` returns `s`, exactly the Python clamping of negative
slice indices). -/
def masked_key (s : String) : String :=
  if 12 < s.length then s.take 8 ++ "..." ++ s.drop (s.length - 4)
  else "***"

/-- The `try` block of `complete_system_demonstration`
(src lines 355-467).  Line 357 loads `GroqClient` then `GROQ_API_KEY`,
line 358 loads `ConversationManager`, line 362 loads
`InformationExtractor`, line 364 prints.  `rest` stands for lines
366-467. -/
def complete_system_try (rest : Except PyError Unit) :
    Except PyError Unit := do
  pyLookup "GroqClient"
  pyLookup "GROQ_API_KEY"
  pyLookup "ConversationManager"
  pyLookup "InformationExtractor"
  pyPrint
  rest

/-- `complete_system_demonstration` (src lines 346-473): prints (lines
350-354), the try block, and a whole-body `except Exception as e`
handler (lines 469-473) that prints, performs the successful
function-level `import traceback`, and prints the formatted trace. -/
def complete_system_demonstration (rest : Except PyError Unit) :
    Except PyError Unit := do
  pyPrint
  pyPrint
  pyTry (complete_system_try rest)
    [pyClause "Exception" isException (do
      pyPrint
      pyPrint
      pyPrint)]

/-!
Part 2: the conversation-state and extraction core.  The classes
`Message`, `ConversationManager` (with its `ConversationHistory`),
`ExtractionResult` and `InformationExtractor` are referenced by the
repository but defined nowhere in it, so they are modelled from the
specification.  The external completion service is a parameter
`complete : List Message → Except ServiceError String`, mirroring the
narrow collaborator contract of the specification.  Mutating methods are
modelled by explicit state passing; methods that raise return `Except`.
-/

/-- Modelled from the spec: the failure modes of the external completion
service (AuthenticationError, RateLimitError, TransportError). -/
inductive ServiceError where
  | authenticationError
  | rateLimitError
  | transportError (msg : String)
  deriving DecidableEq

/-- Modelled from the spec: the validation errors of the conversation
core (InvalidRole, InvalidContent) and SummarizationError wrapping a
collaborator failure. -/
inductive CoreError where
  | invalidRole (role : String)
  | invalidContent
  | summarizationError (cause : ServiceError)
  deriving DecidableEq

/-- Modelled from the spec: `Message`, one conversational turn, absent
from the repository.  A role-tagged, non-empty text; immutable once
created. -/
structure Message where
  role : String
  content : String
  deriving DecidableEq

/-- Modelled from the spec: the recognized role set {user, assistant,
system}. -/
def recognizedRoles : List String := ["user", "assistant", "system"]

/-- Modelled from the spec: `Message` construction, absent from the
repository: the role must be one of the recognized roles (InvalidRole
otherwise) and the content must be non-empty (InvalidContent
otherwise). -/
def mkMessage (role content : String) : Except CoreError Message :=
  if role ∈ recognizedRoles then
    if content = "" then Except.error CoreError.invalidContent
    else Except.ok { role := role, content := content }
  else Except.error (CoreError.invalidRole role)

/-- Modelled from the spec: `ConversationHistory`, absent from the
repository: the ordered message log, at most one rolling summary, and
the count of user-originated turns. -/
structure ConversationHistory where
  messages : List Message
  summary : Option String
  total_turns : Nat
  deriving DecidableEq

/-- Modelled from the spec: `ConversationManager`, absent from the
repository.  It owns one `ConversationHistory` and the configured
`summarization_threshold`; `turns_at_last_summarization` records the
turn counter at the most recent summarization (0 when none has
occurred), realizing the re-arm condition of the specification
(trigger is true whenever turns since the last summarization reach the
threshold). -/
structure ConversationManager where
  summarization_threshold : Nat
  conversation_history : ConversationHistory
  turns_at_last_summarization : Nat
  deriving DecidableEq

/-- Modelled from the spec: a manager created at conversation start with
an empty history. -/
def ConversationManager.init (threshold : Nat) : ConversationManager :=
  { summarization_threshold := threshold
    conversation_history := { messages := [], summary := none, total_turns := 0 }
    turns_at_last_summarization := 0 }

/-- Modelled from the spec: `add_message(role, content)`, absent from
the repository: validates via `Message` construction, appends the new
message, and increments `total_turns` exactly when the role is
`user`. -/
def add_message (m : ConversationManager) (role content : String) :
    Except CoreError ConversationManager :=
  match mkMessage role content with
  | Except.error e => Except.error e
  | Except.ok msg =>
    Except.ok
      { m with
        conversation_history :=
          { messages := m.conversation_history.messages ++ [msg]
            summary := m.conversation_history.summary
            total_turns := m.conversation_history.total_turns +
              (if role = "user" then 1 else 0) } }

/-- Modelled from the spec: `should_summarize()`, absent from the
repository: a pure predicate, true exactly when the turns accumulated
since the last summarization have reached the threshold. -/
def should_summarize (m : ConversationManager) : Bool :=
  decide (m.summarization_threshold ≤
    m.conversation_history.total_turns - m.turns_at_last_summarization)

/-- Modelled from the spec: `get_conversation_history()`, absent from
the repository: the current ordered message sequence. -/
def get_conversation_history (m : ConversationManager) : List Message :=
  m.conversation_history.messages

/-- Modelled from the spec: the single summarization prompt combining
the prior summary (when present) with the un-summarized turns. -/
def summarizationPrompt (m : ConversationManager) : List Message :=
  (match m.conversation_history.summary with
   | some s => [{ role := "system", content := s }]
   | none => []) ++ m.conversation_history.messages

/-- Modelled from the spec: `force_summarize()`, absent from the
repository.  On an empty history it is a no-op returning an
empty-string summary (the no-op policy the specification recommends).
Otherwise it calls the external service once on the combined prompt; on
success it atomically replaces the summarized span with one synthetic
system message carrying the summary and stores the summary; on failure
the history is returned unchanged and the collaborator failure is
surfaced as SummarizationError carrying the cause. -/
def force_summarize (complete : List Message → Except ServiceError String)
    (m : ConversationManager) :
    ConversationManager × Except CoreError String :=
  if m.conversation_history.messages = [] ∧ m.conversation_history.summary = none then
    (m, Except.ok "")
  else
    match complete (summarizationPrompt m) with
    | Except.error e => (m, Except.error (CoreError.summarizationError e))
    | Except.ok text =>
      ({ summarization_threshold := m.summarization_threshold
         conversation_history :=
           { messages := [{ role := "system", content := text }]
             summary := some text
             total_turns := m.conversation_history.total_turns }
         turns_at_last_summarization := m.conversation_history.total_turns },
       Except.ok text)

/-- A sequence of `add_message` calls, threaded through the manager
state; an exception aborts the sequence, as in Python. -/
def runCalls (m : ConversationManager) :
    List (String × String) → Except CoreError ConversationManager
  | [] => Except.ok m
  | (role, content) :: rest =>
    match add_message m role content with
    | Except.error e => Except.error e
    | Except.ok m1 => runCalls m1 rest

/-- The number of calls in a call sequence whose role argument is
`user`. -/
def countUserCalls (calls : List (String × String)) : Nat :=
  (calls.filter (fun p => p.1 == "user")).length

/-- Modelled from the spec: `ExtractionResult`, absent from the
repository: a mapping from field name to optional text value (absent =
not found, insertion order preserved), a confidence score, and the
ordered validation-error list. -/
structure ExtractionResult where
  extracted_data : List (String × Option String)
  confidence_score : ℚ
  validation_errors : List String
  deriving DecidableEq

/-- Modelled from the spec: the possible failures of extraction:
ExtractionResult construction with a confidence score outside [0, 1],
EmptyInputError, a collaborator failure, and a response-parsing
failure. -/
inductive ExtractionError where
  | invalidConfidence
  | emptyInput
  | serviceError (cause : ServiceError)
  | parseFailure
  deriving DecidableEq

/-- Modelled from the spec: `ExtractionResult` construction, absent from
the repository: fails unless the confidence score lies in the closed
interval [0, 1]. -/
def mkExtractionResult (data : List (String × Option String)) (score : ℚ)
    (errors : List String) : Except ExtractionError ExtractionResult :=
  if 0 ≤ score ∧ score ≤ 1 then
    Except.ok { extracted_data := data, confidence_score := score,
                validation_errors := errors }
  else Except.error ExtractionError.invalidConfidence

/-- Modelled from the spec: `get_extracted_fields()`, absent from the
repository: the keys of `extracted_data` whose value is non-absent, in
order. -/
def get_extracted_fields (r : ExtractionResult) : List String :=
  (r.extracted_data.filter (fun p => p.2.isSome)).map Prod.fst

/-- Modelled from the spec: the fixed extraction schema (name, email,
phone, age, location). -/
def schemaFields : List String := ["name", "email", "phone", "age", "location"]

/-- Modelled from the spec: the single completion request issued for an
extraction (the exact instruction wording is not fixed by the
specification; only the request/response contract matters here). -/
def requestMessages (text : String) : List Message :=
  [{ role := "user", content := text }]

/-- Modelled from the spec: `extracted_data` assembled from a parsed
response: every schema field is present as a key, with `none` for a
field not found. -/
def extractionData (fields : String → Option String) :
    List (String × Option String) :=
  schemaFields.map (fun f => (f, fields f))

/-- Modelled from the spec: the field-coverage confidence heuristic
(fraction of schema fields with a non-absent value). -/
def extractionScore (fields : String → Option String) : ℚ :=
  ((schemaFields.countP (fun f => (fields f).isSome) : ℚ)) /
    ((schemaFields.length : ℚ))

/-- Modelled from the spec: per-field validation, run only on non-absent
values; `validate f v = some msg` is a failed validator producing the
message `msg`, and an absent field contributes nothing. -/
def extractionErrors (validate : String → String → Option String)
    (fields : String → Option String) : List String :=
  schemaFields.filterMap (fun f => (fields f).bind (validate f))

/-- Modelled from the spec: `extract_information(text)` of
`InformationExtractor`, absent from the repository: fails with
EmptyInputError on empty text; otherwise issues one completion request,
propagates a collaborator failure, fails when the response cannot be
parsed, and otherwise builds the validated `ExtractionResult` (the
response parser and the per-field validators are parameters, since the
specification fixes neither). -/
def extract_information
    (complete : List Message → Except ServiceError String)
    (parse : String → Option (String → Option String))
    (validate : String → String → Option String)
    (text : String) : Except ExtractionError ExtractionResult :=
  if text = "" then Except.error ExtractionError.emptyInput
  else
    match complete (requestMessages text) with
    | Except.error e => Except.error (ExtractionError.serviceError e)
    | Except.ok response =>
      match parse response with
      | none => Except.error ExtractionError.parseFailure
      | some fields =>
        mkExtractionResult (extractionData fields) (extractionScore fields)
          (extractionErrors validate fields)

/-!
Witness-support values: concrete inputs at which the theorems below are
instantiated.
-/

/-- The four-user-message scenario of the specification (threshold 4). -/
def fourUserCalls : List (String × String) :=
  [("user", "m1"), ("user", "m2"), ("user", "m3"), ("user", "m4")]

/-- A concrete two-call sequence: one user call, one assistant call. -/
def wCalls : List (String × String) := [("user", "hi"), ("assistant", "yo")]

/-- The manager state reached by running `wCalls` from a fresh manager
with threshold 5. -/
def wAfter : ConversationManager :=
  { summarization_threshold := 5
    conversation_history :=
      { messages := [{ role := "user", content := "hi" },
                     { role := "assistant", content := "yo" }]
        summary := none
        total_turns := 1 }
    turns_at_last_summarization := 0 }

/-- A concrete non-empty manager state. -/
def wManager : ConversationManager :=
  { summarization_threshold := 5
    conversation_history :=
      { messages := [{ role := "user", content := "hi" }]
        summary := none
        total_turns := 1 }
    turns_at_last_summarization := 0 }

/-- A completion service that always fails with a rate-limit error. -/
def wFailService : List Message → Except ServiceError String :=
  fun _ => Except.error ServiceError.rateLimitError

/-- A concrete parsed-field map: only the age field is found. -/
def wFields : String → Option String :=
  fun f => if f = "age" then some "25" else none

/-- A concrete validator that accepts every value. -/
def wValidate : String → String → Option String := fun _ _ => none

/-- A completion service answering every request with a fixed
response. -/
def wComplete : List Message → Except ServiceError String :=
  fun _ => Except.ok "resp"

/-- A parser returning `wFields` for every response. -/
def wParse : String → Option (String → Option String) := fun _ => some wFields

/-- The extraction result produced from `wFields`. -/
def wExtractionResult : ExtractionResult :=
  { extracted_data := extractionData wFields
    confidence_score := extractionScore wFields
    validation_errors := extractionErrors wValidate wFields }

/-!
Helper lemmas shared by the claim theorems.
-/

/-- A successful `add_message` call increments `total_turns` by one
exactly when the role argument is `user`. -/
theorem add_message_total (m : ConversationManager) (role content : String)
    (m1 : ConversationManager) (h : add_message m role content = Except.ok m1) :
    m1.conversation_history.total_turns =
      m.conversation_history.total_turns + (if role = "user" then 1 else 0) := by
  cases hm : mkMessage role content with
  | error e => simp [add_message, hm] at h
  | ok msg =>
    simp [add_message, hm] at h
    subst h
    rfl

/-- The field-coverage confidence heuristic always lies in [0, 1]. -/
theorem extractionScore_bounds (fields : String → Option String) :
    0 ≤ extractionScore fields ∧ extractionScore fields ≤ 1 := by
  unfold extractionScore
  constructor
  · positivity
  · rw [div_le_one (by norm_num [schemaFields])]
    have h := List.countP_le_length (p := fun f => (fields f).isSome)
      (l := schemaFields)
    exact_mod_cast h

/-- Building an `ExtractionResult` from parsed fields always succeeds,
because the coverage score satisfies the constructor invariant. -/
theorem mkExtraction_ok (fields : String → Option String)
    (validate : String → String → Option String) :
    mkExtractionResult (extractionData fields) (extractionScore fields)
        (extractionErrors validate fields) =
      Except.ok { extracted_data := extractionData fields
                  confidence_score := extractionScore fields
                  validation_errors := extractionErrors validate fields } := by
  unfold mkExtractionResult
  rw [if_pos (extractionScore_bounds fields)]

/-- Removing from a list an element mapped to `none` does not change the
result of `filterMap`. -/
theorem filterMap_erase_of_none {α β : Type} [DecidableEq α]
    (g : α → Option β) (a : α) (hg : g a = none) (l : List α) :
    (l.erase a).filterMap g = l.filterMap g := by
  induction l with
  | nil => rfl
  | cons b t ih =>
    by_cases hb : b = a
    · subst hb
      simp [List.erase_cons_head, List.filterMap_cons, hg]
    · simp [List.erase_cons, hb, List.filterMap_cons, ih]

/-!
The claim theorems.
-/

/-- C1: the helper-class names `ConversationManager`,
`InformationExtractor`, `Message`, `ExtractionResult` and `GroqClient`
are bound nowhere in the module, so loading any of them raises a
`NameError`; consequently each example function that reaches a use of
one of these names fails at that first use, for every possible value of
the unmodellable remainder of its body. -/
theorem c1_undefined_class_names :
    (pyLookup "ConversationManager" =
        Except.error (PyError.nameError "ConversationManager")) ∧
    (pyLookup "InformationExtractor" =
        Except.error (PyError.nameError "InformationExtractor")) ∧
    (pyLookup "Message" = Except.error (PyError.nameError "Message")) ∧
    (pyLookup "ExtractionResult" =
        Except.error (PyError.nameError "ExtractionResult")) ∧
    (pyLookup "GroqClient" = Except.error (PyError.nameError "GroqClient")) ∧
    (∀ rest, example_basic_try rest =
        Except.error (PyError.nameError "GroqClient")) ∧
    (∀ rest, example_information_try rest =
        Except.error (PyError.nameError "InformationExtractor")) ∧
    (∀ rest, example_summarization_try rest =
        Except.error (PyError.nameError "ConversationManager")) ∧
    (∀ r1 r2 r3 r4 r5, example_error_handling r1 r2 r3 r4 r5 =
        Except.error (PyError.nameError "Message")) ∧
    (∀ rest, complete_system_try rest =
        Except.error (PyError.nameError "GroqClient")) :=
  ⟨rfl, rfl, rfl, rfl, rfl, fun _ => rfl, fun _ => rfl, fun _ => rfl,
   fun _ _ _ _ _ => rfl, fun _ => rfl⟩

/-- Instantiation of the C1 theorem at the trivial continuation. -/
theorem c1_witness :
    example_basic_try (Except.ok ()) =
        Except.error (PyError.nameError "GroqClient") ∧
    example_information_try (Except.ok ()) =
        Except.error (PyError.nameError "InformationExtractor") ∧
    example_summarization_try (Except.ok ()) =
        Except.error (PyError.nameError "ConversationManager") ∧
    complete_system_try (Except.ok ()) =
        Except.error (PyError.nameError "GroqClient") :=
  ⟨c1_undefined_class_names.2.2.2.2.2.1 (Except.ok ()),
   c1_undefined_class_names.2.2.2.2.2.2.1 (Except.ok ()),
   c1_undefined_class_names.2.2.2.2.2.2.2.1 (Except.ok ()),
   c1_undefined_class_names.2.2.2.2.2.2.2.2.2 (Except.ok ())⟩

/-- C9 (counterexample): the concrete call of `example_error_handling`
propagates a `NameError` to its caller — the unbound `Message` raised in
scenario 1 is not matched by the scenario handler, which catches only
`ValueError` — so it is not the case that every example function
catches its exceptions internally. -/
theorem c9_counterexample :
    example_error_handling (Except.ok ()) (Except.ok ()) (Except.ok ())
        (Except.ok ()) (Except.ok ()) =
      Except.error (PyError.nameError "Message") := rfl

/-- C9 (amended): the three example functions with whole-body
`except Exception` handlers and `complete_system_demonstration` catch
every exception internally and return normally, while
`example_error_handling` propagates a `NameError` (its handlers catch
only `ValueError`, which the `NameError` from the unbound `Message` is
not) and `run_system_diagnostics` propagates a `NameError` at its
unprotected use of `GROQ_API_KEY`. -/
theorem c9_catch_and_print_amended :
    (∀ rest, example_basic_conversation_management rest = Except.ok ()) ∧
    (∀ rest, example_information_extraction rest = Except.ok ()) ∧
    (∀ rest, example_summarization_strategies rest = Except.ok ()) ∧
    (∀ rest, complete_system_demonstration rest = Except.ok ()) ∧
    (∀ r1 r2 r3 r4 r5, example_error_handling r1 r2 r3 r4 r5 =
        Except.error (PyError.nameError "Message")) ∧
    (∀ rest, run_system_diagnostics rest =
        Except.error (PyError.nameError "GROQ_API_KEY")) :=
  ⟨fun _ => rfl, fun _ => rfl, fun _ => rfl, fun _ => rfl,
   fun _ _ _ _ _ => rfl, fun _ => rfl⟩

/-- Instantiation of the amended C9 theorem at the trivial
continuation. -/
theorem c9_witness :
    example_basic_conversation_management (Except.ok ()) = Except.ok () ∧
    run_system_diagnostics (Except.ok ()) =
      Except.error (PyError.nameError "GROQ_API_KEY") :=
  ⟨c9_catch_and_print_amended.1 (Except.ok ()),
   c9_catch_and_print_amended.2.2.2.2.2 (Except.ok ())⟩

/-- C2: when a sequence of `add_message` calls completes (no call
raised), `total_turns` has grown by exactly the number of calls whose
role was `user`; and a successful call with a non-user role never
changes `total_turns`. -/
theorem c2_total_turns_counts_user_calls :
    (∀ (calls : List (String × String)) (m m1 : ConversationManager),
        runCalls m calls = Except.ok m1 →
        m1.conversation_history.total_turns =
          m.conversation_history.total_turns + countUserCalls calls) ∧
    (∀ (role content : String) (m m1 : ConversationManager), role ≠ "user" →
        add_message m role content = Except.ok m1 →
        m1.conversation_history.total_turns =
          m.conversation_history.total_turns) := by
  constructor
  · intro calls
    induction calls with
    | nil =>
      intro m m1 h
      simp [runCalls] at h
      subst h
      simp [countUserCalls]
    | cons c rest ih =>
      obtain ⟨role, content⟩ := c
      intro m m1 h
      cases ha : add_message m role content with
      | error e => simp [runCalls, ha] at h
      | ok m2 =>
        simp only [runCalls, ha] at h
        have h1 := ih m2 m1 h
        have h2 := add_message_total m role content m2 ha
        have h3 : countUserCalls ((role, content) :: rest) =
            (if role = "user" then 1 else 0) + countUserCalls rest := by
          by_cases hr : role = "user" <;>
            simp [countUserCalls, hr, Nat.add_comm]
        rw [h1, h2, h3]
        omega
  · intro role content m m1 hr h
    have h2 := add_message_total m role content m1 h
    simp [h2, hr]

/-- Instantiation of the C2 theorem on a concrete completed two-call
sequence with one user call. -/
theorem c2_witness :
    wAfter.conversation_history.total_turns =
      (ConversationManager.init 5).conversation_history.total_turns +
        countUserCalls wCalls :=
  c2_total_turns_counts_user_calls.1 wCalls (ConversationManager.init 5)
    wAfter rfl

/-- C3: with no prior summarization, `should_summarize` is a pure
predicate that is true exactly when `total_turns` has reached the
threshold; in the threshold-4 scenario it is false after 1, 2 and 3
user messages and becomes true exactly on the 4th. -/
theorem c3_should_summarize_threshold (m : ConversationManager)
    (h : m.turns_at_last_summarization = 0) :
    (should_summarize m = true ↔
      m.summarization_threshold ≤ m.conversation_history.total_turns) ∧
    ((runCalls (ConversationManager.init 4) (fourUserCalls.take 1)).map
        should_summarize = Except.ok false) ∧
    ((runCalls (ConversationManager.init 4) (fourUserCalls.take 2)).map
        should_summarize = Except.ok false) ∧
    ((runCalls (ConversationManager.init 4) (fourUserCalls.take 3)).map
        should_summarize = Except.ok false) ∧
    ((runCalls (ConversationManager.init 4) fourUserCalls).map
        should_summarize = Except.ok true) := by
  refine ⟨?_, by decide, by decide, by decide, by decide⟩
  unfold should_summarize
  rw [h, Nat.sub_zero]
  exact decide_eq_true_iff

/-- Instantiation of the C3 theorem at a fresh threshold-4 manager. -/
theorem c3_witness :
    should_summarize (ConversationManager.init 4) = true ↔
      (ConversationManager.init 4).summarization_threshold ≤
        (ConversationManager.init 4).conversation_history.total_turns :=
  (c3_should_summarize_threshold (ConversationManager.init 4) rfl).1

/-- C4: when the external completion service fails during
`force_summarize`, the manager (hence its whole `ConversationHistory`:
messages, summary and turn counter) is returned unchanged, and — when
the history is not empty, so that the service really is consulted — the
failure is surfaced as a `SummarizationError` carrying the underlying
cause. -/
theorem c4_force_summarize_atomic (m : ConversationManager)
    (complete : List Message → Except ServiceError String) (e : ServiceError)
    (hc : complete (summarizationPrompt m) = Except.error e) :
    (force_summarize complete m).1 = m ∧
    (¬ (m.conversation_history.messages = [] ∧
          m.conversation_history.summary = none) →
      (force_summarize complete m).2 =
        Except.error (CoreError.summarizationError e)) := by
  unfold force_summarize
  by_cases hcase : m.conversation_history.messages = [] ∧
      m.conversation_history.summary = none
  · rw [if_pos hcase]
    exact ⟨rfl, fun hn => absurd hcase hn⟩
  · rw [if_neg hcase, hc]
    exact ⟨rfl, fun _ => rfl⟩

/-- Instantiation of the C4 theorem at a non-empty history and an
always-failing service. -/
theorem c4_witness :
    (force_summarize wFailService wManager).2 =
      Except.error (CoreError.summarizationError ServiceError.rateLimitError) :=
  (c4_force_summarize_atomic wManager wFailService ServiceError.rateLimitError
    rfl).2 (by decide)

/-- C5: `add_message` with a role outside the recognized set fails with
an InvalidRole error (no updated state is produced, so the history is
unchanged), and `Message` construction with such a role likewise always
fails. -/
theorem c5_invalid_role_rejected (m : ConversationManager)
    (role content : String) (h : role ∉ recognizedRoles) :
    add_message m role content = Except.error (CoreError.invalidRole role) ∧
    mkMessage role content = Except.error (CoreError.invalidRole role) := by
  have hm : mkMessage role content = Except.error (CoreError.invalidRole role) := by
    unfold mkMessage
    rw [if_neg h]
  refine ⟨?_, hm⟩
  unfold add_message
  rw [hm]

/-- Instantiation of the C5 theorem at the role `bogus` of the
specification scenario. -/
theorem c5_witness :
    add_message (ConversationManager.init 5) "bogus" "x" =
        Except.error (CoreError.invalidRole "bogus") ∧
    mkMessage "bogus" "x" = Except.error (CoreError.invalidRole "bogus") :=
  c5_invalid_role_rejected (ConversationManager.init 5) "bogus" "x" (by decide)

/-- C6: every successfully constructed `ExtractionResult` has its
confidence score inside [0, 1], and construction with a score outside
that interval always fails. -/
theorem c6_confidence_score_invariant (data : List (String × Option String))
    (score : ℚ) (errors : List String) (r : ExtractionResult)
    (h : mkExtractionResult data score errors = Except.ok r) :
    (0 ≤ r.confidence_score ∧ r.confidence_score ≤ 1) ∧
    (∀ s : ℚ, s < 0 ∨ 1 < s →
      mkExtractionResult data s errors =
        Except.error ExtractionError.invalidConfidence) := by
  constructor
  · unfold mkExtractionResult at h
    by_cases hb : 0 ≤ score ∧ score ≤ 1
    · rw [if_pos hb] at h
      cases h
      exact hb
    · rw [if_neg hb] at h
      cases h
  · intro s hs
    unfold mkExtractionResult
    rw [if_neg (show ¬ (0 ≤ s ∧ s ≤ 1) by
      rintro ⟨h0, h1⟩
      rcases hs with hlt | hgt
      · linarith
      · linarith)]

/-- Instantiation of the C6 theorem: a score of 1.5 is rejected (the
theorem is applied at the successfully constructed score 0.5). -/
theorem c6_witness :
    mkExtractionResult [] ((3 : ℚ)/2) [] =
      Except.error ExtractionError.invalidConfidence :=
  (c6_confidence_score_invariant [] ((1 : ℚ)/2) []
      { extracted_data := [], confidence_score := (1 : ℚ)/2,
        validation_errors := [] }
      (by unfold mkExtractionResult; rw [if_pos (by norm_num)])).2
    ((3 : ℚ)/2) (Or.inr (by norm_num))

/-- C7: `get_extracted_fields` returns exactly the keys of
`extracted_data` carrying a non-absent value; on the record built from
the data {name: John, email: absent} with confidence 0.75 it returns
exactly [name]. -/
theorem c7_extracted_fields :
    (∀ (r : ExtractionResult) (k : String),
        k ∈ get_extracted_fields r ↔
          ∃ v : String, (k, some v) ∈ r.extracted_data) ∧
    ((mkExtractionResult [("name", some "John"), ("email", none)]
        ((3 : ℚ)/4) []).map get_extracted_fields = Except.ok ["name"]) := by
  constructor
  · intro r k
    unfold get_extracted_fields
    simp only [List.mem_map, List.mem_filter]
    constructor
    · rintro ⟨⟨a, b⟩, ⟨hmem, hsome⟩, rfl⟩
      obtain ⟨v, hv⟩ := Option.isSome_iff_exists.mp hsome
      subst hv
      exact ⟨v, hmem⟩
    · rintro ⟨v, hv⟩
      exact ⟨(k, some v), ⟨hv, rfl⟩, rfl⟩
  · unfold mkExtractionResult
    rw [if_pos (by norm_num)]
    rfl

/-- Instantiation of the C7 theorem characterization at the concrete
membership question for the key `name`. -/
theorem c7_witness :
    "name" ∈ get_extracted_fields wExtractionResult ↔
      ∃ v : String, ("name", some v) ∈ wExtractionResult.extracted_data :=
  c7_extracted_fields.1 wExtractionResult "name"

/-- C8: `extract_information` fails exactly when the input text is empty
or the external service call fails or its response cannot be parsed; a
schema field not found in the input is never an error: it appears in
`extracted_data` with an absent value and contributes no validation
error (dropping it from the schema leaves the error list unchanged). -/
theorem c8_extract_error_cases
    (complete : List Message → Except ServiceError String)
    (parse : String → Option (String → Option String))
    (validate : String → String → Option String) (text : String) :
    ((∃ err, extract_information complete parse validate text =
        Except.error err) ↔
      (text = "" ∨
        (∃ e, complete (requestMessages text) = Except.error e) ∨
        (∃ resp, complete (requestMessages text) = Except.ok resp ∧
          parse resp = none))) ∧
    (∀ (resp : String) (fields : String → Option String)
        (r : ExtractionResult) (f : String),
      complete (requestMessages text) = Except.ok resp →
      parse resp = some fields →
      extract_information complete parse validate text = Except.ok r →
      f ∈ schemaFields → fields f = none →
      ((f, (none : Option String)) ∈ r.extracted_data ∧
        r.validation_errors =
          (schemaFields.erase f).filterMap
            (fun g => (fields g).bind (validate g)))) := by
  constructor
  · constructor
    · rintro ⟨err, herr⟩
      unfold extract_information at herr
      split at herr
      · next ht => exact Or.inl ht
      · next ht =>
        split at herr
        · next e hc => exact Or.inr (Or.inl ⟨e, hc⟩)
        · next resp hc =>
          split at herr
          · next hp => exact Or.inr (Or.inr ⟨resp, hc, hp⟩)
          · next fields hp =>
            rw [mkExtraction_ok fields validate] at herr
            cases herr
    · rintro (ht | ⟨e, hc⟩ | ⟨resp, hc, hp⟩)
      · exact ⟨ExtractionError.emptyInput, by
          unfold extract_information
          rw [if_pos ht]⟩
      · by_cases ht : text = ""
        · exact ⟨ExtractionError.emptyInput, by
            unfold extract_information
            rw [if_pos ht]⟩
        · exact ⟨ExtractionError.serviceError e, by
            unfold extract_information
            rw [if_neg ht]
            simp only [hc]⟩
      · by_cases ht : text = ""
        · exact ⟨ExtractionError.emptyInput, by
            unfold extract_information
            rw [if_pos ht]⟩
        · exact ⟨ExtractionError.parseFailure, by
            unfold extract_information
            rw [if_neg ht]
            simp only [hc, hp]⟩
  · intro resp fields r f hc hp hr hf hnone
    unfold extract_information at hr
    have ht : ¬ text = "" := by
      intro h
      rw [if_pos h] at hr
      cases hr
    rw [if_neg ht] at hr
    simp only [hc, hp] at hr
    rw [mkExtraction_ok fields validate] at hr
    cases hr
    constructor
    · unfold extractionData
      exact List.mem_map.mpr ⟨f, hf, by simp [hnone]⟩
    · show extractionErrors validate fields = _
      unfold extractionErrors
      rw [filterMap_erase_of_none _ f (by simp [hnone]) schemaFields]

/-- Instantiation of the C8 theorem missing-field conjunct: the email
field is not found by the concrete parser, appears as absent, and
contributes no validation error. -/
theorem c8_witness :
    (("email", (none : Option String)) ∈ wExtractionResult.extracted_data) ∧
    wExtractionResult.validation_errors =
      (schemaFields.erase "email").filterMap
        (fun g => (wFields g).bind (wValidate g)) :=
  (c8_extract_error_cases wComplete wParse wValidate "hello").2 "resp" wFields
    wExtractionResult "email" rfl rfl
    (by
      show mkExtractionResult (extractionData wFields) (extractionScore wFields)
          (extractionErrors wValidate wFields) = Except.ok wExtractionResult
      exact mkExtraction_ok wFields wValidate)
    (by decide) rfl

/-- C10: the masked key printed by the diagnostics depends only on the
length of the key and, when the length exceeds 12, on its first 8 and
last 4 characters — two non-empty keys of equal length agreeing there
mask identically — and a key of length at most 12 is always masked as
three stars, so the middle of the key is never revealed. -/
theorem c10_masked_key_hiding (s t : String) (hs : s ≠ "") (ht : t ≠ "")
    (hlen : s.length = t.length) (h8 : s.take 8 = t.take 8)
    (h4 : s.drop (s.length - 4) = t.drop (t.length - 4)) :
    masked_key s = masked_key t ∧ (s.length ≤ 12 → masked_key s = "***") := by
  constructor
  · unfold masked_key
    rw [h4, hlen, h8]
  · intro hle
    unfold masked_key
    rw [if_neg (by omega)]

/-- Instantiation of the C10 theorem at two 16-character keys agreeing
on the first 8 and last 4 characters but differing in the middle. -/
theorem c10_witness :
    masked_key "abcdefghMIDDwxyz" = masked_key "abcdefghQQQQwxyz" ∧
    (("abcdefghMIDDwxyz" : String).length ≤ 12 →
      masked_key "abcdefghMIDDwxyz" = "***") :=
  c10_masked_key_hiding "abcdefghMIDDwxyz" "abcdefghQQQQwxyz" (by decide)
    (by decide) (by decide) (by decide) (by decide)
